import Mathlib

/-!
Verification of the memory-tracking core of the repository:
`memory_tracker.py` (class `MemoryTracker`) and `visualize_memory.py`
(`compare_implementations`), shallowly embedded over exact rationals.
Clock readings (`time.time()`) and the OS resident-set size
(`psutil.Process.memory_info().rss`) are nondeterministic inputs of the
Python code; here they are explicit parameters of each operation.
-/

/-- State of one `MemoryTracker` instance: the fields set in `__init__`
and mutated by `start` / `_record_point`.  `start_time` is `None`
(`Option.none`) until `start()` is called. -/
structure Tracker where
  label : String
  timestamps : List ℚ
  memory_usage : List ℚ
  start_time : Option ℚ
  deriving Repr, DecidableEq

/-- `MemoryTracker.__init__(label)`: empty sample lists, no start time. -/
def Tracker.init (label : String) : Tracker :=
  { label := label, timestamps := [], memory_usage := [], start_time := none }

/-- `MemoryTracker._record_point()`: converts the resident-set size to
MB (`rss / (1024 * 1024)`), computes
`time.time() - self.start_time if self.start_time else 0` (Python
truthiness: `None` and `0.0` are both falsy), and appends to both lists.
`now` is the value of `time.time()` and `rss` the reading in bytes. -/
def record_point (now rss : ℚ) (t : Tracker) : Tracker :=
  let memory_mb := rss / (1024 * 1024)
  let elapsed_time :=
    match t.start_time with
    | some s => if s = 0 then 0 else now - s
    | none => 0
  { t with timestamps := t.timestamps ++ [elapsed_time],
           memory_usage := t.memory_usage ++ [memory_mb] }

/-- `MemoryTracker.start()`: sets `start_time`, clears both lists, then
records the baseline point.  `tStart` is the `time.time()` reading taken
in `start` itself, `tRec` the one taken inside `_record_point`. -/
def Tracker.start (tStart tRec rss : ℚ) (t : Tracker) : Tracker :=
  record_point tRec rss
    { t with start_time := some tStart, timestamps := [], memory_usage := [] }

/-- The error type the spec assigns to lifecycle violations.  The Python
source never defines or raises it; it appears here only so that the
success of `record` / `stop` can be stated as `Except.ok`. -/
inductive StateError where
  | stateError
  deriving Repr, DecidableEq

/-- `MemoryTracker.record()`: unconditionally calls `_record_point()`;
there is no state check, so it always returns `ok`. -/
def Tracker.record (now rss : ℚ) (t : Tracker) : Except StateError Tracker :=
  Except.ok (record_point now rss t)

/-- `MemoryTracker.stop()`: unconditionally calls `_record_point()`;
there is no state flag, so repeated calls also return `ok`. -/
def Tracker.stop (now rss : ℚ) (t : Tracker) : Except StateError Tracker :=
  Except.ok (record_point now rss t)

/-- Fold of `record()` over a sequence of environment readings
`(now, rss)`, for counting samples across `k` calls. -/
def recordMany (envs : List (ℚ × ℚ)) (t : Tracker) : Tracker :=
  envs.foldl (fun acc e => record_point e.1 e.2 acc) t

theorem recordMany_timestamps_length (envs : List (ℚ × ℚ)) (t : Tracker) :
    (recordMany envs t).timestamps.length = t.timestamps.length + envs.length := by
  induction envs generalizing t with
  | nil => simp [recordMany]
  | cons e es ih =>
      simp only [recordMany, List.foldl_cons] at *
      rw [ih]
      simp [record_point]
      omega

theorem recordMany_memory_length (envs : List (ℚ × ℚ)) (t : Tracker) :
    (recordMany envs t).memory_usage.length = t.memory_usage.length + envs.length := by
  induction envs generalizing t with
  | nil => simp [recordMany]
  | cons e es ih =>
      simp only [recordMany, List.foldl_cons] at *
      rw [ih]
      simp [record_point]
      omega

/-- C4: immediately after `start()` the series has exactly 1 sample (the
baseline); after `k` further `record()` calls it has `1 + k`; after
`stop()` it has `2 + k`; and calling `start()` again on the same handle
discards all prior samples, leaving a fresh series of length 1. -/
theorem start_record_stop_sample_counts
    (t : Tracker) (tS tR rss0 : ℚ) (envs : List (ℚ × ℚ))
    (tStop rssStop tS2 tR2 rss2 : ℚ) :
    (t.start tS tR rss0).timestamps.length = 1 ∧
    (t.start tS tR rss0).memory_usage.length = 1 ∧
    (recordMany envs (t.start tS tR rss0)).timestamps.length = 1 + envs.length ∧
    (∃ t', (recordMany envs (t.start tS tR rss0)).stop tStop rssStop = Except.ok t' ∧
      t'.timestamps.length = 2 + envs.length) ∧
    ((recordMany envs (t.start tS tR rss0)).start tS2 tR2 rss2).timestamps.length = 1 ∧
    ((recordMany envs (t.start tS tR rss0)).start tS2 tR2 rss2).memory_usage.length = 1 := by
  refine ⟨?_, ?_, ?_, ?_, ?_, ?_⟩
  · simp [Tracker.start, record_point]
  · simp [Tracker.start, record_point]
  · rw [recordMany_timestamps_length]
    simp [Tracker.start, record_point]
  · refine ⟨_, rfl, ?_⟩
    simp [record_point, recordMany_timestamps_length, Tracker.start]
    omega
  · simp [Tracker.start, record_point]
  · simp [Tracker.start, record_point]

/-- C1 counterexample: on a freshly constructed (never-started) tracker,
`record()` succeeds and appends a sample instead of raising `StateError`,
and a second `stop()` also succeeds, appending yet another sample. -/
theorem record_stop_no_state_error_counterexample :
    (Tracker.init "demo").record 5 1048576 =
      Except.ok { label := "demo", timestamps := [0], memory_usage := [1],
                  start_time := none } ∧
    ((Tracker.init "demo").start 10 10 1048576) =
      { label := "demo", timestamps := [0], memory_usage := [1],
        start_time := some 10 } ∧
    Tracker.stop 11 1048576
        ({ label := "demo", timestamps := [0], memory_usage := [1],
           start_time := some 10 } : Tracker) =
      Except.ok { label := "demo", timestamps := [0, 1], memory_usage := [1, 1],
                  start_time := some 10 } ∧
    Tracker.stop 12 1048576
        ({ label := "demo", timestamps := [0, 1], memory_usage := [1, 1],
           start_time := some 10 } : Tracker) =
      Except.ok { label := "demo", timestamps := [0, 1, 2],
                  memory_usage := [1, 1, 1], start_time := some 10 } := by
  refine ⟨?_, ?_, ?_, ?_⟩ <;>
    norm_num [Tracker.record, Tracker.stop, Tracker.start, record_point,
      Tracker.init]

/-- C1 amended: the tracker has no state machine; `record()` and `stop()`
never raise `StateError` in any state, each call appending exactly one
sample, so a second `stop()` appends a further sample instead of failing. -/
theorem record_stop_always_ok (t : Tracker) (now now2 rss rss2 : ℚ) :
    (∃ t', t.record now rss = Except.ok t' ∧
      t'.timestamps.length = t.timestamps.length + 1) ∧
    (∃ t' t'', t.stop now rss = Except.ok t' ∧
      t'.stop now2 rss2 = Except.ok t'' ∧
      t''.timestamps.length = t.timestamps.length + 2) := by
  refine ⟨⟨_, rfl, ?_⟩, ⟨_, _, rfl, rfl, ?_⟩⟩ <;> simp [record_point]

/-- C2 counterexample: with a resident-set reading of 1048576 bytes, the
stored metric value is `1` (the reading rescaled to MB), not the raw byte
count `1048576`. -/
theorem metric_value_not_raw_bytes_counterexample :
    (record_point 5 1048576 (Tracker.init "t")).memory_usage = [1] ∧
    (1 : ℚ) ≠ 1048576 := by
  norm_num [record_point, Tracker.init]

/-- C2 amended: every recorded sample stores
`rss / (1024 * 1024)` — the resident memory rescaled to MB — as its
metric value, not the raw byte count. -/
theorem metric_value_is_mb (now rss : ℚ) (t : Tracker) :
    (record_point now rss t).memory_usage.getLast? = some (rss / 1048576) := by
  simp [record_point]
  norm_num

/-- C10: on a tracker whose `start()` has never been called
(`start_time = None`), `record()` does not raise: it appends a sample with
`elapsed_seconds = 0`, so samples accumulate before any baseline exists. -/
theorem record_before_start (now rss : ℚ) (t : Tracker)
    (h : t.start_time = none) :
    ∃ t', t.record now rss = Except.ok t' ∧
      t'.timestamps = t.timestamps ++ [0] ∧
      t'.memory_usage = t.memory_usage ++ [rss / 1048576] := by
  refine ⟨_, rfl, ?_, ?_⟩ <;> simp [record_point, h] <;> norm_num

/-- Witness for C10 at a concrete fresh tracker. -/
theorem record_before_start_witness :
    (Tracker.init "x").start_time = none ∧
    (∃ t', (Tracker.init "x").record 7 2097152 = Except.ok t' ∧
      t'.timestamps = (Tracker.init "x").timestamps ++ [0] ∧
      t'.memory_usage = (Tracker.init "x").memory_usage ++ [2097152 / 1048576]) :=
  ⟨rfl, record_before_start 7 2097152 (Tracker.init "x") rfl⟩

/-- A numeric cell of the CSV file: an exact decimal literal with
mantissa `man` and `exp` fractional digits, denoting `man / 10 ^ exp`.
`pandas.DataFrame.to_csv` writes each float as an exact (round-tripping)
decimal literal; this is its numeric content. -/
structure DecLit where
  man : ℤ
  exp : ℕ
  deriving Repr, DecidableEq

/-- The rational number a decimal literal denotes — what `pd.read_csv`
recovers when parsing the cell. -/
def decValue (d : DecLit) : ℚ := (d.man : ℚ) / 10 ^ d.exp

/-- Exact decimal rendering of a value at `k` fractional digits, when it
exists — what `to_csv` writes for a value representable at precision `k`. -/
def decEncode (k : ℕ) (q : ℚ) : Option DecLit :=
  if (q * 10 ^ k).den = 1 then some ⟨(q * 10 ^ k).num, k⟩ else none

/-- Renders every value of a column, failing if any value has no exact
`k`-digit decimal form. -/
def encodeList (k : ℕ) : List ℚ → Option (List DecLit)
  | [] => some []
  | q :: qs =>
    match decEncode k q, encodeList k qs with
    | some d, some ds => some (d :: ds)
    | _, _ => none

/-- The content of the file `MemoryTracker.save_data` writes: the header
row, then one row per sample.  Commas and newlines are structural: a row
is a pair of cells. -/
structure CsvFile where
  header : String
  rows : List (DecLit × DecLit)
  deriving Repr, DecidableEq

/-- `MemoryTracker.save_data`: builds a `DataFrame` from the dict
`{"timestamp": self.timestamps, "memory_mb": self.memory_usage}` and
writes it with `to_csv(filename, index=False)`: header row
`timestamp,memory_mb`, then the two columns zipped row by row, each value
as an exact decimal literal (at precision `k` in this model). -/
def save_data (k : ℕ) (t : Tracker) : Option CsvFile :=
  match encodeList k t.timestamps, encodeList k t.memory_usage with
  | some es, some ms => some ⟨"timestamp,memory_mb", es.zip ms⟩
  | _, _ => none

/-- The `timestamp` column as `pd.read_csv` parses it
(`data['timestamp']` in `visualize_memory.py`). -/
def loadTimestamps (f : CsvFile) : List ℚ :=
  f.rows.map fun r => decValue r.1

/-- The `memory_mb` column as `pd.read_csv` parses it
(`data['memory_mb']` in `visualize_memory.py`). -/
def loadMemory (f : CsvFile) : List ℚ :=
  f.rows.map fun r => decValue r.2

theorem decEncode_decValue (k : ℕ) (q : ℚ) (d : DecLit)
    (h : decEncode k q = some d) : decValue d = q := by
  unfold decEncode at h
  split at h
  · rename_i hden
    cases h
    unfold decValue
    have h10 : ((10 : ℚ) ^ k) ≠ 0 := by positivity
    have : ((q * 10 ^ k).num : ℚ) = q * 10 ^ k := by
      rw [← Rat.den_eq_one_iff]
      exact hden
    rw [this]
    field_simp
  · cases h

theorem encodeList_decValue (k : ℕ) (qs : List ℚ) (ds : List DecLit)
    (h : encodeList k qs = some ds) : ds.map decValue = qs := by
  induction qs generalizing ds with
  | nil => cases h; rfl
  | cons q qs ih =>
      unfold encodeList at h
      cases he : decEncode k q with
      | none => rw [he] at h; cases h
      | some d =>
          rw [he] at h
          cases hl : encodeList k qs with
          | none => rw [hl] at h; cases h
          | some ds' =>
              rw [hl] at h
              cases h
              simp [List.map_cons, decEncode_decValue k q d he, ih ds' hl]

theorem encodeList_length (k : ℕ) (qs : List ℚ) (ds : List DecLit)
    (h : encodeList k qs = some ds) : ds.length = qs.length := by
  have := encodeList_decValue k qs ds h
  calc ds.length = (ds.map decValue).length := by simp
    _ = qs.length := by rw [this]

/-- A concrete two-sample tracker used to instantiate the persistence
theorems. -/
def demoTracker : Tracker :=
  { label := "t", timestamps := [0, 2], memory_usage := [3, 4],
    start_time := none }

/-- The file `save_data 0 demoTracker` produces. -/
def demoCsv : CsvFile :=
  ⟨"timestamp,memory_mb", [(⟨0, 0⟩, ⟨3, 0⟩), (⟨2, 0⟩, ⟨4, 0⟩)]⟩

/-- C3 counterexample: for a concrete one-sample tracker the written file
begins with the header row `timestamp,memory_mb`, which is not the header
`elapsed_seconds,metric_value` the claim requires. -/
theorem save_header_counterexample :
    save_data 0 { label := "t", timestamps := [0], memory_usage := [3],
                  start_time := none } =
      some ⟨"timestamp,memory_mb", [(⟨0, 0⟩, ⟨3, 0⟩)]⟩ ∧
    "timestamp,memory_mb" ≠ "elapsed_seconds,metric_value" := by
  constructor
  · norm_num [save_data, encodeList, decEncode]
  · decide

/-- C3 amended: `save_data` writes a header row naming the two columns
`timestamp,memory_mb` (not `elapsed_seconds,metric_value`), followed by
exactly one comma-separated data row per sample in order, with no
trailing commentary rows. -/
theorem save_data_shape (k : ℕ) (t : Tracker) (f : CsvFile)
    (hlen : t.timestamps.length = t.memory_usage.length)
    (hsave : save_data k t = some f) :
    f.header = "timestamp,memory_mb" ∧
    f.rows.length = t.timestamps.length ∧
    loadTimestamps f = t.timestamps := by
  unfold save_data at hsave
  cases he : encodeList k t.timestamps with
  | none => rw [he] at hsave; cases hsave
  | some es =>
      rw [he] at hsave
      cases hm : encodeList k t.memory_usage with
      | none => rw [hm] at hsave; cases hsave
      | some ms =>
          rw [hm] at hsave
          cases hsave
          have h1 := encodeList_length k _ _ he
          have h2 := encodeList_length k _ _ hm
          have hle : es.length ≤ ms.length := by omega
          refine ⟨rfl, ?_, ?_⟩
          · rw [List.length_zip]
            omega
          · unfold loadTimestamps
            have hcomp : List.map (decValue ∘ Prod.fst) (es.zip ms) =
                t.timestamps := by
              rw [← List.map_map, List.map_fst_zip es ms hle]
              exact encodeList_decValue k _ _ he
            exact hcomp

/-- Witness for C3 at a concrete two-sample tracker. -/
theorem save_data_shape_witness :
    demoTracker.timestamps.length = demoTracker.memory_usage.length ∧
    save_data 0 demoTracker = some demoCsv ∧
    demoCsv.header = "timestamp,memory_mb" ∧
    demoCsv.rows.length = demoTracker.timestamps.length ∧
    loadTimestamps demoCsv = demoTracker.timestamps := by
  have h := save_data_shape 0 demoTracker demoCsv (by decide)
    (by norm_num [save_data, encodeList, decEncode, demoTracker, demoCsv])
  exact ⟨by decide,
    by norm_num [save_data, encodeList, decEncode, demoTracker, demoCsv],
    h.1, h.2.1, h.2.2⟩

/-- C5: for every non-empty series whose values all have an exact
`k`-digit decimal form, reading back the written file (`pd.read_csv` of
the `to_csv` output) reproduces the sample count and, per index, the
`timestamp` and `memory_mb` values exactly. -/
theorem save_load_roundtrip (k : ℕ) (t : Tracker) (f : CsvFile)
    (hne : t.timestamps ≠ [])
    (hlen : t.timestamps.length = t.memory_usage.length)
    (hsave : save_data k t = some f) :
    f.rows.length = t.timestamps.length ∧
    loadTimestamps f = t.timestamps ∧
    loadMemory f = t.memory_usage := by
  unfold save_data at hsave
  cases he : encodeList k t.timestamps with
  | none => rw [he] at hsave; cases hsave
  | some es =>
      rw [he] at hsave
      cases hm : encodeList k t.memory_usage with
      | none => rw [hm] at hsave; cases hsave
      | some ms =>
          rw [hm] at hsave
          cases hsave
          have h1 := encodeList_length k _ _ he
          have h2 := encodeList_length k _ _ hm
          have hle : es.length ≤ ms.length := by omega
          have hge : ms.length ≤ es.length := by omega
          refine ⟨?_, ?_, ?_⟩
          · rw [List.length_zip]; omega
          · unfold loadTimestamps
            have hcomp : List.map (decValue ∘ Prod.fst) (es.zip ms) =
                t.timestamps := by
              rw [← List.map_map, List.map_fst_zip es ms hle]
              exact encodeList_decValue k _ _ he
            exact hcomp
          · unfold loadMemory
            have hcomp : List.map (decValue ∘ Prod.snd) (es.zip ms) =
                t.memory_usage := by
              rw [← List.map_map, List.map_snd_zip es ms hge]
              exact encodeList_decValue k _ _ hm
            exact hcomp

/-- Witness for C5 at the concrete two-sample tracker. -/
theorem save_load_roundtrip_witness :
    demoTracker.timestamps ≠ [] ∧
    demoTracker.timestamps.length = demoTracker.memory_usage.length ∧
    save_data 0 demoTracker = some demoCsv ∧
    demoCsv.rows.length = demoTracker.timestamps.length ∧
    loadTimestamps demoCsv = demoTracker.timestamps ∧
    loadMemory demoCsv = demoTracker.memory_usage := by
  have h := save_load_roundtrip 0 demoTracker demoCsv
    (by simp [demoTracker]) (by decide)
    (by norm_num [save_data, encodeList, decEncode, demoTracker, demoCsv])
  exact ⟨by simp [demoTracker], by decide,
    by norm_num [save_data, encodeList, decEncode, demoTracker, demoCsv],
    h.1, h.2.1, h.2.2⟩

/-- Result of `np.polyfit(x, y, 1)` in `MemoryTracker.plot`: the degree-1
coefficients `z[0]` (slope) and `z[1]` (intercept). -/
structure TrendLine where
  slope : ℚ
  intercept : ℚ
  deriving Repr, DecidableEq

/-- The ordinary-least-squares line over the pairs `(ts[i], ms[i])`: the
value `np.polyfit(self.timestamps, self.memory_usage, 1)` computes for a
nondegenerate sample set (division is the rationals' total division). -/
def polyfit1 (ts ms : List ℚ) : TrendLine :=
  let n : ℚ := ts.length
  let sx := ts.sum
  let sy := ms.sum
  let sxy := (List.zipWith (fun a b => a * b) ts ms).sum
  let sxx := (ts.map (fun x => x * x)).sum
  let d := n * sxx - sx * sx
  { slope := (n * sxy - sx * sy) / d,
    intercept := (sy * sxx - sx * sxy) / d }

/-- The trend-line block of `MemoryTracker.plot`: the fit runs only under
`if len(self.timestamps) > 1`; with fewer samples the block is skipped
and no trend is produced. -/
def fitTrend (ts ms : List ℚ) : Option TrendLine :=
  if 1 < ts.length then some (polyfit1 ts ms) else none

/-- C7 counterexample: on a one-sample series the plot code skips the fit
entirely — it produces no trend value at all, rather than the
`TrendResult` with `slope = 0.0` and `intercept = 100` the claim requires. -/
theorem fit_single_sample_counterexample :
    fitTrend [0] [100] = none ∧
    (none : Option TrendLine) ≠ some { slope := 0, intercept := 100 } := by
  constructor
  · simp [fitTrend]
  · simp

/-- C7 amended: with fewer than 2 samples the fit is skipped (the
`len > 1` guard fails), so no trend result of any kind is produced, and
no error is raised — `fitTrend` is total and returns `none`. -/
theorem fit_fewer_than_two_samples (ts ms : List ℚ)
    (h : ts.length < 2) : fitTrend ts ms = none := by
  unfold fitTrend
  rw [if_neg]
  omega

/-- Witness for C7 on the empty series. -/
theorem fit_fewer_than_two_samples_witness :
    ([] : List ℚ).length < 2 ∧ fitTrend [] [] = none :=
  ⟨by decide, fit_fewer_than_two_samples [] [] (by decide)⟩

/-- C8: the least-squares fit of the samples
`(0,100), (1,110), (2,120), (3,130)` has slope within `1e-6` of `10`
(here exactly `10`, by exact rational arithmetic). -/
theorem fit_example_slope :
    ∃ r, fitTrend [0, 1, 2, 3] [100, 110, 120, 130] = some r ∧
      |r.slope - 10| ≤ 1 / 1000000 := by
  refine ⟨{ slope := 10, intercept := 100 }, ?_, by norm_num⟩
  norm_num [fitTrend, polyfit1, List.zipWith]

/-- Python exceptions `compare_implementations` can hit in its statistics
block, plus the typed error the spec postulates.  `IndexError` is what
`.iloc[0]` / `.iloc[-1]` raise on an empty column; the source never
defines `InsufficientDataError`. -/
inductive PyError where
  | indexError
  | insufficientDataError
  deriving Repr, DecidableEq

/-- The statistics of `compare_implementations` (lines 64–82): initial,
final and growth of each column, and the growth difference of the
annotation's last line. -/
structure ComparisonStats where
  bad_initial : ℚ
  bad_final : ℚ
  bad_growth : ℚ
  good_initial : ℚ
  good_final : ℚ
  good_growth : ℚ
  difference : ℚ
  deriving Repr, DecidableEq

/-- `column.iloc[0]`: the first entry, raising `IndexError` when the
column is empty. -/
def ilocFirst : List ℚ → Except PyError ℚ
  | [] => Except.error PyError.indexError
  | x :: _ => Except.ok x

/-- `column.iloc[-1]`: the last entry, raising `IndexError` when the
column is empty. -/
def ilocLast (l : List ℚ) : Except PyError ℚ :=
  match l.getLast? with
  | none => Except.error PyError.indexError
  | some x => Except.ok x

/-- The statistics block of `compare_implementations` on the two
`memory_mb` columns, in the source's evaluation order: `bad` first, then
`good`; the first failing `.iloc` access propagates its exception. -/
def compareStats (bad good : List ℚ) : Except PyError ComparisonStats :=
  match ilocFirst bad, ilocLast bad, ilocFirst good, ilocLast good with
  | Except.ok bi, Except.ok bf, Except.ok gi, Except.ok gf =>
      Except.ok { bad_initial := bi, bad_final := bf, bad_growth := bf - bi,
                  good_initial := gi, good_final := gf,
                  good_growth := gf - gi,
                  difference := (bf - bi) - (gf - gi) }
  | Except.error e, _, _, _ => Except.error e
  | _, Except.error e, _, _ => Except.error e
  | _, _, Except.error e, _ => Except.error e
  | _, _, _, Except.error e => Except.error e

/-- The baseline-zero normalization of lines 98–99:
`column - column.iloc[0]` applied entrywise. -/
def normalizeColumn : List ℚ → List ℚ
  | [] => []
  | x :: xs => (x :: xs).map (fun y => y - x)

/-- C6: for non-empty columns the engine reports each growth as
final minus initial, which equals the last entry of the baseline-zero
normalized column; the reported difference is `growth_a - growth_b`; and
identical columns give difference `0`. -/
theorem compare_growth (bad good : List ℚ) (hb : bad ≠ []) (hg : good ≠ []) :
    ∃ s, compareStats bad good = Except.ok s ∧
      (normalizeColumn bad).getLast? = some s.bad_growth ∧
      (normalizeColumn good).getLast? = some s.good_growth ∧
      s.difference = s.bad_growth - s.good_growth ∧
      (bad = good → s.difference = 0) := by
  cases bad with
  | nil => exact absurd rfl hb
  | cons b bs =>
      cases good with
      | nil => exact absurd rfl hg
      | cons g gs =>
          obtain ⟨bl, hbl⟩ : ∃ x, (b :: bs).getLast? = some x :=
            ⟨_, List.getLast?_eq_getLast _ (List.cons_ne_nil b bs)⟩
          obtain ⟨gl, hgl⟩ : ∃ x, (g :: gs).getLast? = some x :=
            ⟨_, List.getLast?_eq_getLast _ (List.cons_ne_nil g gs)⟩
          have hc : compareStats (b :: bs) (g :: gs) =
              Except.ok ⟨b, bl, bl - b, g, gl, gl - g,
                (bl - b) - (gl - g)⟩ := by
            simp only [compareStats, ilocFirst, ilocLast, hbl, hgl]
          refine ⟨_, hc, ?_, ?_, rfl, ?_⟩
          · simp only [normalizeColumn, List.getLast?_map, hbl]
            rfl
          · simp only [normalizeColumn, List.getLast?_map, hgl]
            rfl
          · intro h
            injection h with h1 h2
            subst h1
            subst h2
            rw [hbl] at hgl
            injection hgl with h3
            subst h3
            simp

/-- Witness for C6 on two identical concrete columns. -/
theorem compare_growth_witness :
    (([3, 5] : List ℚ) ≠ []) ∧
    (∃ s, compareStats [3, 5] [3, 5] = Except.ok s ∧
      (normalizeColumn [3, 5]).getLast? = some s.bad_growth ∧
      (normalizeColumn [3, 5]).getLast? = some s.good_growth ∧
      s.difference = s.bad_growth - s.good_growth ∧
      (([3, 5] : List ℚ) = [3, 5] → s.difference = 0)) :=
  ⟨by simp, compare_growth [3, 5] [3, 5] (by simp) (by simp)⟩

/-- C9 counterexample: handed an empty column, the engine fails with the
untyped `IndexError` coming from `.iloc[0]`, not with the typed
`InsufficientDataError` the claim requires. -/
theorem compare_empty_counterexample :
    compareStats [] [5] = Except.error PyError.indexError ∧
    PyError.indexError ≠ PyError.insufficientDataError := by
  constructor
  · simp [compareStats, ilocFirst, ilocLast]
  · decide

/-- C9 amended: if either column is empty the engine neither substitutes
defaults nor produces a report: the first `.iloc` access on the empty
column raises `IndexError` (an untyped builtin exception; no
`InsufficientDataError` exists in the source). -/
theorem compare_empty_index_error (bad good : List ℚ)
    (h : bad = [] ∨ good = []) :
    compareStats bad good = Except.error PyError.indexError := by
  rcases h with h | h
  · subst h
    simp [compareStats, ilocFirst, ilocLast]
  · subst h
    cases bad with
    | nil => simp [compareStats, ilocFirst, ilocLast]
    | cons b bs =>
        have hbl := List.getLast?_eq_getLast (b :: bs) (List.cons_ne_nil b bs)
        simp only [compareStats, ilocFirst, ilocLast, hbl, List.getLast?_nil]

/-- Witness for C9 with an empty first column. -/
theorem compare_empty_index_error_witness :
    (([] : List ℚ) = [] ∨ ([7] : List ℚ) = []) ∧
    compareStats [] [7] = Except.error PyError.indexError :=
  ⟨Or.inl rfl, compare_empty_index_error [] [7] (Or.inl rfl)⟩
